import Mathlib

/-!
Verification development for the `Smith2018ArticularContactForce` contact
engine (elastic-foundation articular contact between triangulated meshes).

The repository ships the class header `Smith2018ArticularContactForce.h`,
which declares the component, its properties, outputs and internal data
structures, and documents the Bei & Fregly (2004) depth-pressure laws and
the Zevenbergen (2018) variable-property (split) formulation.  The method
bodies (proximity detection, pressure solving) live in a translation unit
that is not part of this tree, so those algorithms are modelled here from
the design specification; definitions transcribed directly from the header
(output/type declarations, the `nonlinearContactParams` and `contact_stats`
structs) are noted as such.

All scalar quantities are modelled as real numbers.
-/

namespace Smith2018

/-- Modelled from the spec: the elastic-foundation material coefficient
`E(1-nu)/((1+nu)(1-2nu))` shared by the linear and nonlinear depth-pressure
laws of Bei & Fregly 2004 (header doc, pressure-law equations); the
implementation file that evaluates it is not in the tree. -/
noncomputable def elasticCoef (E nu : ℝ) : ℝ :=
  E * (1 - nu) / ((1 + nu) * (1 - 2 * nu))

/-- Modelled from the spec: the material stiffness factor
`k = E(1-nu)/((1+nu)(1-2nu)h)` of the elastic layer of thickness `h`. -/
noncomputable def matStiffness (E nu h : ℝ) : ℝ :=
  E * (1 - nu) / ((1 + nu) * (1 - 2 * nu) * h)

/-- Modelled from the spec: the linear depth-pressure law
`P = E(1-nu)/((1+nu)(1-2nu)) * d/h` (header doc "Linear" equation);
the evaluating code is not in the tree. -/
noncomputable def linearPressure (E nu h d : ℝ) : ℝ :=
  elasticCoef E nu * (d / h)

/-- Modelled from the spec: the nonlinear depth-pressure law
`P = -E(1-nu)/((1+nu)(1-2nu)) * ln(1 - d/h)` (header doc "Non-Linear"
equation); the evaluating code is not in the tree. -/
noncomputable def nonlinearPressure (E nu h d : ℝ) : ℝ :=
  -(elasticCoef E nu) * Real.log (1 - d / h)

/-- Modelled from the spec: the linear law written in terms of the
stiffness factor `k`, `P = k*d`. -/
noncomputable def linFromK (k d : ℝ) : ℝ := k * d

/-- Modelled from the spec: the nonlinear law written in terms of the
stiffness factor `k`, `P = -k*h*ln(1 - d/h)`. -/
noncomputable def nonlinFromK (k h d : ℝ) : ℝ :=
  -(k * h) * Real.log (1 - d / h)

/-- Modelled from the spec: the closed-form series-spring pressure of the
linear split (variable-property) formulation, `P = d / (1/k1 + 1/k2)`;
the solving code is not in the tree. -/
noncomputable def linearSplitPressure (k1 k2 d : ℝ) : ℝ :=
  d / (1 / k1 + 1 / k2)

/-- Modelled from the spec: casting-side sub-depth `d1 = P/k1` of the
linear split solution. -/
noncomputable def linearSplitD1 (k1 k2 d : ℝ) : ℝ :=
  linearSplitPressure k1 k2 d / k1

/-- Modelled from the spec: target-side sub-depth `d2 = P/k2` of the
linear split solution. -/
noncomputable def linearSplitD2 (k1 k2 d : ℝ) : ℝ :=
  linearSplitPressure k1 k2 d / k2

/-- Transcribed from the header: the private parameter struct handed to the
nonlinear residual callback, `struct nonlinearContactParams
{ double h1, h2, k1, k2, dc; }`. -/
structure nonlinearContactParams where
  h1 : ℝ
  h2 : ℝ
  k1 : ℝ
  k2 : ℝ
  dc : ℝ

/-- Modelled from the spec: the residual of the nonlinear split system
scalarised in the casting-side depth `d1` (the two pressure equations with
`d2 = dc - d1` substituted from the depth-sum equation); the callback
`calcNonlinearPressureResid` is declared in the header but its body is not
in the tree. -/
noncomputable def calcNonlinearPressureResid
    (p : nonlinearContactParams) (d1 : ℝ) : ℝ :=
  nonlinFromK p.k1 p.h1 d1 - nonlinFromK p.k2 p.h2 (p.dc - d1)

/-- Modelled from the spec: `(d1, d2, P)` solves the Zevenbergen split
system for stiffnesses `k1, k2`, thicknesses `h1, h2` and total depth `d`:
both nonlinear pressure equations hold, the sub-depths sum to `d`, and each
sub-depth is inside its law's domain (`di < hi`). -/
def IsNonlinearSplitSolution (k1 h1 k2 h2 d d1 d2 P : ℝ) : Prop :=
  d1 < h1 ∧ d2 < h2 ∧ P = nonlinFromK k1 h1 d1 ∧
    P = nonlinFromK k2 h2 d2 ∧ d1 + d2 = d

/-- Modelled from the spec: the lumped model "combines the thickness and
averages the material properties" of the two sides (header property doc of
`use_lumped_contact_model`): combined thickness `h1 + h2`, averaged modulus
and Poisson coefficient. -/
noncomputable def lumpedLinearPressure (E1 nu1 h1 E2 nu2 h2 d : ℝ) : ℝ :=
  linearPressure ((E1 + E2) / 2) ((nu1 + nu2) / 2) (h1 + h2) d

/-- Modelled from the spec: the lumped nonlinear pressure with combined
thickness `h1 + h2` and averaged material properties. -/
noncomputable def lumpedNonlinearPressure (E1 nu1 h1 E2 nu2 h2 d : ℝ) : ℝ :=
  nonlinearPressure ((E1 + E2) / 2) ((nu1 + nu2) / 2) (h1 + h2) d

/-- Modelled from the spec: relative margin by which a depth is kept
strictly below the layer thickness before the logarithm is evaluated
(the clamp constant itself is an implementation detail not in the tree). -/
noncomputable def depthClampTol : ℝ := 1 / 1024

/-- Modelled from the spec: clamp a depth strictly below the thickness `h`
before the nonlinear law evaluates its logarithm. -/
noncomputable def clampDepth (h d : ℝ) : ℝ :=
  min d ((1 - depthClampTol) * h)

/-- Modelled from the spec: a guarded logarithm; a non-positive argument,
which would produce a non-finite value in floating point, is reported as
`none` instead of a number. -/
noncomputable def safeLog (x : ℝ) : Option ℝ :=
  if 0 < x then some (Real.log x) else none

/-- Modelled from the spec: the nonlinear law evaluated through the guarded
logarithm; `none` models the non-finite result that an unclamped depth
`d ≥ h` would produce. -/
noncomputable def nonlinearPressureChecked (E nu h d : ℝ) : Option ℝ :=
  (safeLog (1 - d / h)).map (fun L => -(elasticCoef E nu) * L)

/-- Modelled from the spec: the nonlinear law as the solver evaluates it,
with the depth clamped strictly below the thickness first. -/
noncomputable def nonlinearPressureClamped (E nu h d : ℝ) : Option ℝ :=
  nonlinearPressureChecked E nu h (clampDepth h d)

/-- Modelled from the spec: the bounded iterative root search for the
nonlinear split system (the numerical solver behind
`calcNonlinearPressureResid` is not in the tree).  Each step bisects the
bracket; iteration stops when the residual magnitude falls below the
tolerance, and `none` reports non-convergence once the maximum iteration
count is exhausted. -/
noncomputable def bisectSolve (g : ℝ → ℝ) (tol : ℝ) : ℝ → ℝ → ℕ → Option ℝ
  | _, _, 0 => none
  | lo, hi, n + 1 =>
    if |g ((lo + hi) / 2)| < tol then some ((lo + hi) / 2)
    else if 0 < g ((lo + hi) / 2) then bisectSolve g tol lo ((lo + hi) / 2) n
    else bisectSolve g tol ((lo + hi) / 2) hi n

/-- Modelled from the spec: the nonlinear split pressure solver for one
contacting triangle pair.  It runs the bounded iteration on the residual;
on convergence it returns the nonlinear pressure at the found casting-side
depth, and on non-convergence it falls back to the linear closed-form
estimate, flagging a warning exactly when the verbosity level is at least
one.  The returned pair is `(pressure, warning logged)`. -/
noncomputable def solveNonlinearSplit (p : nonlinearContactParams)
    (tol : ℝ) (maxIter verbose : ℕ) : ℝ × Bool :=
  match bisectSolve (calcNonlinearPressureResid p) tol 0 p.dc maxIter with
  | some d1 => (nonlinFromK p.k1 p.h1 d1, false)
  | none => (linearSplitPressure p.k1 p.k2 p.dc, decide (1 ≤ verbose))

/-- Modelled from the spec: the per-casting-triangle input of one proximity
detection pass (the body of `computeTriProximity` is not in the tree).
`cached` is the coherence cache entry (previously contacting target
triangle); `rayTest t` is the bidirectional normal-ray intersection test
against target triangle `t`, `some depth` on a valid in-bounds hit and
`none` on a miss; `neighbors` lists the vertex-sharing neighbors of a
target triangle; `bvhCandidates` lists the target triangles reached by the
bounding-volume-hierarchy traversal.  Depths are modelled as rationals. -/
structure ProxInput where
  cached : Option ℕ
  rayTest : ℕ → Option ℚ
  neighbors : ℕ → List ℕ
  bvhCandidates : List ℕ

/-- Modelled from the spec: the neighbor fallback accepts the first valid
ray hit among a candidate list. -/
def firstHit (ray : ℕ → Option ℚ) : List ℕ → Option (ℕ × ℚ)
  | [] => none
  | t :: ts =>
    match ray t with
    | some d => some (t, d)
    | none => firstHit ray ts

/-- Modelled from the spec: among all valid hits produced by the
bounding-volume-hierarchy traversal, select the one with the smallest
absolute depth (the earlier candidate wins a tie). -/
def bvhBest (ray : ℕ → Option ℚ) : List ℕ → Option (ℕ × ℚ)
  | [] => none
  | t :: ts =>
    match ray t, bvhBest ray ts with
    | none, r => r
    | some d, none => some (t, d)
    | some d, some (t2, d2) =>
      if |d| ≤ |d2| then some (t, d) else some (t2, d2)

/-- Modelled from the spec: the detection cascade for one casting
triangle: first the ray test against the cached previously contacting
target triangle, on failure each neighbor of that triangle, on failure the
full hierarchy traversal; `none` when no method hits. -/
def detectTri (inp : ProxInput) : Option (ℕ × ℚ) :=
  match inp.cached with
  | none => bvhBest inp.rayTest inp.bvhCandidates
  | some p =>
    match inp.rayTest p with
    | some d => some (p, d)
    | none =>
      match firstHit inp.rayTest (inp.neighbors p) with
      | some r => some r
      | none => bvhBest inp.rayTest inp.bvhCandidates

/-- Modelled from the spec: the sentinel depth recorded for a casting
triangle that no method found to be in contact. -/
def sentinelDepth : ℚ := 0

/-- Modelled from the spec: the depth stored in the proximity record: the
hit depth, or the sentinel when not in contact. -/
def recordDepth (r : Option (ℕ × ℚ)) : ℚ :=
  (r.map Prod.snd).getD sentinelDepth

/-- Modelled from the spec: one full detection step for a casting
triangle: the pairing result together with the updated coherence cache
entry (the new contacting target triangle on success, cleared on
failure). -/
def detectStep (inp : ProxInput) : Option (ℕ × ℚ) × Option ℕ :=
  (detectTri inp, (detectTri inp).map Prod.fst)

/-- Modelled from the spec: rerun detection at the unchanged pose: the
same ray tests, neighbor lists and hierarchy candidates, with the
coherence cache as the first pass left it. -/
def recache (inp : ProxInput) : ProxInput :=
  { inp with cached := (detectTri inp).map Prod.fst }

/-- Transcribed from the header: the SimTK value types appearing in the
output declarations and in the `contact_stats` struct. -/
inductive SimType where
  | double
  | int
  | vec3
  | vector
  | vectorVec3
  deriving DecidableEq

/-- Transcribed from the header: every `OpenSim_DECLARE_OUTPUT` of
`Smith2018ArticularContactForce`, output name and declared SimTK type
(the `casting_total_n_collinding_tri` spelling is the header's own). -/
def outputDecls : List (String × SimType) :=
  [("target_total_n_colliding_tri", SimType.int),
   ("casting_total_n_collinding_tri", SimType.int),
   ("target_tri_proximity", SimType.vector),
   ("casting_tri_proximity", SimType.vector),
   ("target_tri_pressure", SimType.vector),
   ("casting_tri_pressure", SimType.vector),
   ("target_tri_potential_energy", SimType.vector),
   ("casting_tri_potential_energy", SimType.vector),
   ("target_total_contact_area", SimType.double),
   ("casting_total_contact_area", SimType.double),
   ("target_regional_contact_area", SimType.vector),
   ("casting_regional_contact_area", SimType.vector),
   ("target_total_mean_proximity", SimType.double),
   ("casting_total_mean_proximity", SimType.double),
   ("target_regional_mean_proximity", SimType.vector),
   ("casting_regional_mean_proximity", SimType.vector),
   ("target_total_max_proximity", SimType.double),
   ("casting_total_max_proximity", SimType.double),
   ("target_regional_max_proximity", SimType.vector),
   ("casting_regional_max_proximity", SimType.vector),
   ("target_total_mean_pressure", SimType.double),
   ("casting_total_mean_pressure", SimType.double),
   ("target_regional_mean_pressure", SimType.vector),
   ("casting_regional_mean_pressure", SimType.vector),
   ("target_total_max_pressure", SimType.double),
   ("casting_total_max_pressure", SimType.double),
   ("target_regional_max_pressure", SimType.vector),
   ("casting_regional_max_pressure", SimType.vector),
   ("target_total_center_of_proximity", SimType.double),
   ("casting_total_center_of_proximity", SimType.double),
   ("target_regional_center_of_proximity", SimType.vector),
   ("casting_regional_center_of_proximity", SimType.vector),
   ("target_total_center_of_pressure", SimType.double),
   ("casting_total_center_of_pressure", SimType.double),
   ("target_regional_center_of_pressure", SimType.vector),
   ("casting_regional_center_of_pressure", SimType.vector),
   ("target_total_contact_force", SimType.vec3),
   ("casting_total_contact_force", SimType.vec3),
   ("target_regional_contact_force", SimType.vectorVec3),
   ("casting_regional_contact_force", SimType.vectorVec3),
   ("target_total_contact_moment", SimType.vec3),
   ("casting_total_contact_moment", SimType.vec3),
   ("target_regional_contact_moment", SimType.vectorVec3),
   ("casting_regional_contact_moment", SimType.vectorVec3)]

/-- Transcribed from the header: the cache-variable reads of the
whole-mesh center getters, each via `getCacheVariableValue<double>`:
getter name, cache key, template type argument. -/
def centerGetterReads : List (String × String × SimType) :=
  [("getTargetCenterOfProximity",
     ("target.center_of_proximity", SimType.double)),
   ("getCastingCenterOfProximity",
     ("casting.center_of_proximity", SimType.double)),
   ("getTargetCenterOfPressure",
     ("target.center_of_pressure", SimType.double)),
   ("getCastingCenterOfPressure",
     ("casting.center_of_pressure", SimType.double))]

/-- Transcribed from the header: the fields of the private `contact_stats`
struct with their declared types (the centers are `SimTK::Vec3`). -/
def contactStatsFields : List (String × SimType) :=
  [("contact_area", SimType.double),
   ("mean_proximity", SimType.double),
   ("max_proximity", SimType.double),
   ("center_of_proximity", SimType.vec3),
   ("mean_pressure", SimType.double),
   ("max_pressure", SimType.double),
   ("center_of_pressure", SimType.vec3),
   ("contact_force", SimType.vec3),
   ("contact_moment", SimType.vec3)]

end Smith2018

namespace Smith2018

lemma matStiffness_eq_coef_div (E nu h : ℝ) :
    matStiffness E nu h = elasticCoef E nu / h := by
  unfold matStiffness elasticCoef
  rw [div_div]

lemma elasticCoef_pos {E nu : ℝ} (hE : 0 < E) (hnu0 : 0 ≤ nu)
    (hnu : nu < 1 / 2) : 0 < elasticCoef E nu := by
  unfold elasticCoef
  have h1 : (0:ℝ) < 1 - nu := by linarith
  have h2 : (0:ℝ) < 1 + nu := by linarith
  have h3 : (0:ℝ) < 1 - 2 * nu := by linarith
  positivity

lemma clampDepth_lt {h : ℝ} (hh : 0 < h) (d : ℝ) : clampDepth h d < h := by
  unfold clampDepth depthClampTol
  have : (1 - 1 / 1024) * h < h := by nlinarith
  exact lt_of_le_of_lt (min_le_right _ _) this

/-- C1: the pressure solver's linear law agrees with `P = k*d` and its
nonlinear law with `P = -k*h*ln(1 - d/h)` for the stiffness factor
`k = E(1-nu)/((1+nu)(1-2nu)h)`; the guarded nonlinear evaluation yields a
value exactly when `d < h`, and the clamped depth is always strictly below
`h`, so the logarithm is only ever evaluated at a depth strictly less than
the thickness. -/
theorem claim_C1_pressure_laws (E nu h d : ℝ) (hh : 0 < h) :
    linearPressure E nu h d = linFromK (matStiffness E nu h) d ∧
    nonlinearPressure E nu h d =
      -(matStiffness E nu h) * h * Real.log (1 - d / h) ∧
    ((nonlinearPressureChecked E nu h d).isSome ↔ d < h) ∧
    clampDepth h d < h := by
  refine ⟨?_, ?_, ?_, clampDepth_lt hh d⟩
  · unfold linearPressure linFromK
    rw [matStiffness_eq_coef_div]
    ring
  · unfold nonlinearPressure
    rw [matStiffness_eq_coef_div]
    field_simp
    ring
  · unfold nonlinearPressureChecked safeLog
    rcases lt_or_ge 0 (1 - d / h) with hpos | hneg
    · rw [if_pos hpos]
      constructor
      · intro _
        have : d / h < 1 := by linarith
        exact (div_lt_one hh).mp this
      · intro _
        rfl
    · rw [if_neg (not_lt.mpr hneg)]
      constructor
      · intro hs
        simp at hs
      · intro hdh
        have : d / h < 1 := (div_lt_one hh).mpr hdh
        linarith

/-- C1 witness: the laws evaluated at `E = 1`, `nu = 0`, `h = 1`,
`d = 0`. -/
theorem claim_C1_pressure_laws_witness :
    (0:ℝ) < 1 ∧
    (linearPressure 1 0 1 0 = linFromK (matStiffness 1 0 1) 0 ∧
     nonlinearPressure 1 0 1 0 =
       -(matStiffness 1 0 1) * 1 * Real.log (1 - 0 / 1) ∧
     ((nonlinearPressureChecked 1 0 1 0).isSome ↔ (0:ℝ) < 1) ∧
     clampDepth 1 0 < 1) :=
  ⟨by norm_num, claim_C1_pressure_laws 1 0 1 0 (by norm_num)⟩

/-- C2: for `d > 0` and positive `k1, k2`, the linear split sub-depths
`d1 = P/k1`, `d2 = P/k2` of the series-spring solution
`P = d/(1/k1 + 1/k2)` satisfy `d1 + d2 = d` and `k1*d1 = k2*d2`
exactly. -/
theorem claim_C2_linear_split (k1 k2 d : ℝ) (hd : 0 < d)
    (hk1 : 0 < k1) (hk2 : 0 < k2) :
    linearSplitD1 k1 k2 d + linearSplitD2 k1 k2 d = d ∧
    k1 * linearSplitD1 k1 k2 d = k2 * linearSplitD2 k1 k2 d := by
  unfold linearSplitD1 linearSplitD2 linearSplitPressure
  constructor
  · field_simp
    ring
  · field_simp
    ring

lemma matStiffness_mul_h {E nu h : ℝ} (hh : h ≠ 0) :
    matStiffness E nu h * h = elasticCoef E nu := by
  rw [matStiffness_eq_coef_div]
  exact div_mul_cancel₀ _ hh

lemma lumpedNonlinear_same (E nu h d : ℝ) :
    lumpedNonlinearPressure E nu h E nu h d =
      -(elasticCoef E nu) * Real.log (1 - d / (h + h)) := by
  unfold lumpedNonlinearPressure nonlinearPressure
  have h1 : (E + E) / 2 = E := by ring
  have h2 : (nu + nu) / 2 = nu := by ring
  rw [h1, h2]

lemma half_div_eq (d h : ℝ) : d / 2 / h = d / (h + h) := by
  rw [div_div, two_mul h]

/-- C3: when the casting and target sides have identical material
parameters `(E, nu, h)`, the lumped formulation (combined thickness,
averaged properties) and the split formulation agree exactly: the linear
split closed form equals the lumped linear pressure at every depth, every
solution of the nonlinear split system has the lumped nonlinear pressure,
and for every admissible depth `d < 2h` the symmetric pair
`(d/2, d/2)` together with the lumped pressure does solve the split
system. -/
theorem claim_C3_lumped_split_symmetry (E nu h : ℝ) (hE : 0 < E)
    (hnu0 : 0 ≤ nu) (hnu : nu < 1 / 2) (hh : 0 < h) :
    (∀ d, lumpedLinearPressure E nu h E nu h d =
        linearSplitPressure (matStiffness E nu h) (matStiffness E nu h) d) ∧
    (∀ d d1 d2 P,
        IsNonlinearSplitSolution (matStiffness E nu h) h
          (matStiffness E nu h) h d d1 d2 P →
        P = lumpedNonlinearPressure E nu h E nu h d) ∧
    (∀ d, d < 2 * h →
        IsNonlinearSplitSolution (matStiffness E nu h) h
          (matStiffness E nu h) h d (d / 2) (d / 2)
          (lumpedNonlinearPressure E nu h E nu h d)) := by
  have hA : 0 < elasticCoef E nu := elasticCoef_pos hE hnu0 hnu
  have hk : matStiffness E nu h = elasticCoef E nu / h :=
    matStiffness_eq_coef_div E nu h
  refine ⟨?_, ?_, ?_⟩
  · intro d
    unfold lumpedLinearPressure linearPressure linearSplitPressure
    have h1 : (E + E) / 2 = E := by ring
    have h2 : (nu + nu) / 2 = nu := by ring
    rw [h1, h2, hk]
    rw [one_div_div]
    field_simp
    ring
  · rintro d d1 d2 P ⟨hd1, hd2, hP1, hP2, hsum⟩
    have hkh : matStiffness E nu h * h = elasticCoef E nu :=
      matStiffness_mul_h (ne_of_gt hh)
    unfold nonlinFromK at hP1 hP2
    rw [hkh] at hP1 hP2
    have harg1 : 0 < 1 - d1 / h := by
      have : d1 / h < 1 := (div_lt_one hh).mpr hd1
      linarith
    have harg2 : 0 < 1 - d2 / h := by
      have : d2 / h < 1 := (div_lt_one hh).mpr hd2
      linarith
    have hlog : Real.log (1 - d1 / h) = Real.log (1 - d2 / h) := by
      have h12 : -(elasticCoef E nu) * Real.log (1 - d1 / h) =
          -(elasticCoef E nu) * Real.log (1 - d2 / h) := by
        rw [← hP1, ← hP2]
      have := mul_left_cancel₀ (neg_ne_zero.mpr (ne_of_gt hA)) h12
      exact this
    have hargs : 1 - d1 / h = 1 - d2 / h := by
      have := congrArg Real.exp hlog
      rwa [Real.exp_log harg1, Real.exp_log harg2] at this
    have hdiv : d1 / h = d2 / h := by linarith
    have hd12 : d1 = d2 := by
      field_simp [ne_of_gt hh] at hdiv
      exact hdiv
    have hd1half : d1 = d / 2 := by
      rw [hd12] at hsum
      linarith
    rw [lumpedNonlinear_same, hP1, hd1half, half_div_eq d h]
  · intro d hd2h
    have hkh : matStiffness E nu h * h = elasticCoef E nu :=
      matStiffness_mul_h (ne_of_gt hh)
    have hhalf : d / 2 < h := by linarith
    refine ⟨hhalf, hhalf, ?_, ?_, by ring⟩
    · unfold nonlinFromK
      rw [hkh, lumpedNonlinear_same, half_div_eq d h]
    · unfold nonlinFromK
      rw [hkh, lumpedNonlinear_same, half_div_eq d h]

/-- C3 witness: the symmetry invariant at `E = 1`, `nu = 0`, `h = 1`. -/
theorem claim_C3_lumped_split_symmetry_witness :
    (0:ℝ) < 1 ∧ (0:ℝ) ≤ 0 ∧ (0:ℝ) < 1 / 2 ∧
    ((∀ d, lumpedLinearPressure 1 0 1 1 0 1 d =
        linearSplitPressure (matStiffness 1 0 1) (matStiffness 1 0 1) d) ∧
     (∀ d d1 d2 P,
        IsNonlinearSplitSolution (matStiffness 1 0 1) 1
          (matStiffness 1 0 1) 1 d d1 d2 P →
        P = lumpedNonlinearPressure 1 0 1 1 0 1 d) ∧
     (∀ d, d < 2 * 1 →
        IsNonlinearSplitSolution (matStiffness 1 0 1) 1
          (matStiffness 1 0 1) 1 d (d / 2) (d / 2)
          (lumpedNonlinearPressure 1 0 1 1 0 1 d))) :=
  ⟨by norm_num, le_refl 0, by norm_num,
    claim_C3_lumped_split_symmetry 1 0 1 (by norm_num) (le_refl 0)
      (by norm_num) (by norm_num)⟩

/-- C4: when the bounded iteration of the nonlinear split solver reports
non-convergence, the solver returns the linear closed-form estimate for
that triangle pair, flags a warning exactly when the verbosity level is at
least one, and still produces a value (the failure is recoverable, never
fatal). -/
theorem claim_C4_nonconvergence_fallback (p : nonlinearContactParams)
    (tol : ℝ) (maxIter verbose : ℕ)
    (hfail : bisectSolve (calcNonlinearPressureResid p) tol 0 p.dc maxIter
      = none) :
    solveNonlinearSplit p tol maxIter verbose =
      (linearSplitPressure p.k1 p.k2 p.dc, decide (1 ≤ verbose)) ∧
    ((solveNonlinearSplit p tol maxIter verbose).2 = true ↔ 1 ≤ verbose) := by
  unfold solveNonlinearSplit
  rw [hfail]
  exact ⟨rfl, by simp⟩

/-- C4 witness: with a zero iteration budget the solver cannot converge and
returns the linear estimate with the warning flag at verbosity one. -/
theorem claim_C4_nonconvergence_fallback_witness :
    bisectSolve (calcNonlinearPressureResid ⟨1, 1, 1, 1, 1⟩) 1 0 1 0
      = none ∧
    (solveNonlinearSplit ⟨1, 1, 1, 1, 1⟩ 1 0 1 =
      (linearSplitPressure 1 1 1, decide (1 ≤ 1)) ∧
     ((solveNonlinearSplit ⟨1, 1, 1, 1, 1⟩ 1 0 1).2 = true ↔ 1 ≤ 1)) :=
  ⟨rfl, claim_C4_nonconvergence_fallback ⟨1, 1, 1, 1, 1⟩ 1 0 1 rfl⟩

/-- C5: for positive thickness the clamped depth is strictly below the
thickness, so the guarded nonlinear evaluation always produces a value
(never the `none` that models a non-finite result), for every requested
depth including depths at or beyond the thickness. -/
theorem claim_C5_clamped_depth_finite (E nu h d : ℝ) (hh : 0 < h) :
    clampDepth h d < h ∧
    (nonlinearPressureClamped E nu h d).isSome = true := by
  refine ⟨clampDepth_lt hh d, ?_⟩
  unfold nonlinearPressureClamped nonlinearPressureChecked safeLog
  have hlt : clampDepth h d / h < 1 := (div_lt_one hh).mpr (clampDepth_lt hh d)
  have hpos : 0 < 1 - clampDepth h d / h := by linarith
  rw [if_pos hpos]
  rfl

/-- C5 witness: at `h = 1` a requested depth `d = 5` beyond the thickness
is clamped below `1` and still evaluates to a finite pressure. -/
theorem claim_C5_clamped_depth_finite_witness :
    (0:ℝ) < 1 ∧
    (clampDepth 1 5 < 1 ∧
     (nonlinearPressureClamped 1 0 1 5).isSome = true) :=
  ⟨by norm_num, claim_C5_clamped_depth_finite 1 0 1 5 (by norm_num)⟩

/-- C2 witness: the series-spring relations at `k1 = 1`, `k2 = 2`,
`d = 3`. -/
theorem claim_C2_linear_split_witness :
    (0:ℝ) < 3 ∧ (0:ℝ) < 1 ∧ (0:ℝ) < 2 ∧
    (linearSplitD1 1 2 3 + linearSplitD2 1 2 3 = 3 ∧
     1 * linearSplitD1 1 2 3 = 2 * linearSplitD2 1 2 3) :=
  ⟨by norm_num, by norm_num, by norm_num,
    claim_C2_linear_split 1 2 3 (by norm_num) (by norm_num) (by norm_num)⟩

lemma firstHit_ray (ray : ℕ → Option ℚ) :
    ∀ l t d, firstHit ray l = some (t, d) → ray t = some d := by
  intro l
  induction l with
  | nil =>
    intro t d h
    exact absurd h (by simp [firstHit])
  | cons a as ih =>
    intro t d h
    cases hray : ray a with
    | none =>
      simp only [firstHit, hray] at h
      exact ih t d h
    | some da =>
      simp only [firstHit, hray, Option.some.injEq, Prod.mk.injEq] at h
      obtain ⟨rfl, rfl⟩ := h
      exact hray

lemma bvhBest_ray (ray : ℕ → Option ℚ) :
    ∀ l t d, bvhBest ray l = some (t, d) → ray t = some d := by
  intro l
  induction l with
  | nil =>
    intro t d h
    exact absurd h (by simp [bvhBest])
  | cons a as ih =>
    intro t d h
    cases hray : ray a with
    | none =>
      simp only [bvhBest, hray] at h
      exact ih t d h
    | some da =>
      cases hrec : bvhBest ray as with
      | none =>
        simp only [bvhBest, hray, hrec, Option.some.injEq, Prod.mk.injEq] at h
        obtain ⟨rfl, rfl⟩ := h
        exact hray
      | some r2 =>
        obtain ⟨t2, d2⟩ := r2
        by_cases hle : |da| ≤ |d2|
        · simp only [bvhBest, hray, hrec, if_pos hle, Option.some.injEq,
            Prod.mk.injEq] at h
          obtain ⟨rfl, rfl⟩ := h
          exact hray
        · simp only [bvhBest, hray, hrec, if_neg hle, Option.some.injEq,
            Prod.mk.injEq] at h
          obtain ⟨rfl, rfl⟩ := h
          exact ih _ _ hrec

lemma detectTri_cached_hit (inp : ProxInput) (p : ℕ) (d : ℚ)
    (hc : inp.cached = some p) (hray : inp.rayTest p = some d) :
    detectTri inp = some (p, d) := by
  simp only [detectTri, hc, hray]

lemma detectTri_ray (inp : ProxInput) :
    ∀ t d, detectTri inp = some (t, d) → inp.rayTest t = some d := by
  intro t d h
  unfold detectTri at h
  cases hc : inp.cached with
  | none =>
    rw [hc] at h
    exact bvhBest_ray inp.rayTest inp.bvhCandidates t d h
  | some p =>
    rw [hc] at h
    cases hray : inp.rayTest p with
    | some dp =>
      simp only [hray, Option.some.injEq, Prod.mk.injEq] at h
      obtain ⟨rfl, rfl⟩ := h
      exact hray
    | none =>
      cases hfh : firstHit inp.rayTest (inp.neighbors p) with
      | some r =>
        simp only [hray, hfh, Option.some.injEq] at h
        exact firstHit_ray inp.rayTest (inp.neighbors p) t d (by rw [hfh, h])
      | none =>
        simp only [hray, hfh] at h
        exact bvhBest_ray inp.rayTest inp.bvhCandidates t d h

lemma detectTri_none_bvh (inp : ProxInput) (h : detectTri inp = none) :
    bvhBest inp.rayTest inp.bvhCandidates = none := by
  unfold detectTri at h
  cases hc : inp.cached with
  | none =>
    rw [hc] at h
    exact h
  | some p =>
    rw [hc] at h
    cases hray : inp.rayTest p with
    | some dp =>
      simp only [hray] at h
      exact (Option.some_ne_none _ h).elim
    | none =>
      cases hfh : firstHit inp.rayTest (inp.neighbors p) with
      | some r =>
        simp only [hray, hfh] at h
        exact (Option.some_ne_none _ h).elim
      | none =>
        simp only [hray, hfh] at h
        exact h

/-- C6: the detection cascade tries, in order, the cached previously
contacting target triangle, then that triangle's neighbors (first valid
hit), then the full bounding-volume-hierarchy traversal; with an empty
cache it goes straight to the hierarchy; and when no method hits, the
triangle is recorded not-in-contact with the sentinel depth and its
coherence cache entry is cleared. -/
theorem claim_C6_detection_cascade (inp : ProxInput) (p : ℕ) :
    (∀ d, inp.cached = some p → inp.rayTest p = some d →
        detectStep inp = (some (p, d), some p)) ∧
    (∀ r, inp.cached = some p → inp.rayTest p = none →
        firstHit inp.rayTest (inp.neighbors p) = some r →
        detectTri inp = some r) ∧
    (inp.cached = some p → inp.rayTest p = none →
        firstHit inp.rayTest (inp.neighbors p) = none →
        detectTri inp = bvhBest inp.rayTest inp.bvhCandidates) ∧
    (inp.cached = none →
        detectTri inp = bvhBest inp.rayTest inp.bvhCandidates) ∧
    (detectTri inp = none →
        detectStep inp = (none, none) ∧
        recordDepth (detectTri inp) = sentinelDepth) := by
  refine ⟨?_, ?_, ?_, ?_, ?_⟩
  · intro d hc hray
    unfold detectStep
    rw [detectTri_cached_hit inp p d hc hray]
    rfl
  · intro r hc hray hfh
    simp only [detectTri, hc, hray, hfh]
  · intro hc hray hfh
    simp only [detectTri, hc, hray, hfh]
  · intro hc
    unfold detectTri
    rw [hc]
  · intro hnone
    unfold detectStep
    rw [hnone]
    exact ⟨rfl, rfl⟩

/-- C6 witness: a casting triangle whose cached target triangle `0` is hit
at depth `2` is paired with it and the cache keeps entry `0`. -/
theorem claim_C6_detection_cascade_witness :
    detectStep ⟨some 0, fun t => if t = 0 then some 2 else none,
      fun _ => [], []⟩ = (some (0, 2), some 0) :=
  (claim_C6_detection_cascade
    ⟨some 0, fun t => if t = 0 then some 2 else none, fun _ => [], []⟩
    0).1 2 rfl rfl

/-- C7: proximity detection is idempotent at an unchanged pose: rerunning
detection with the coherence cache as the first pass left it reproduces
exactly the same pairing and depth, and hence the same recorded depth. -/
theorem claim_C7_detection_idempotent (inp : ProxInput) :
    detectTri (recache inp) = detectTri inp ∧
    recordDepth (detectTri (recache inp)) = recordDepth (detectTri inp) := by
  have main : detectTri (recache inp) = detectTri inp := by
    cases hr : detectTri inp with
    | some r =>
      obtain ⟨t, d⟩ := r
      have hray : inp.rayTest t = some d := detectTri_ray inp t d hr
      have hc : (recache inp).cached = some t := by
        simp [recache, hr]
      exact detectTri_cached_hit (recache inp) t d hc hray
    | none =>
      have hbvh : bvhBest inp.rayTest inp.bvhCandidates = none :=
        detectTri_none_bvh inp hr
      have hc : (recache inp).cached = none := by
        simp [recache, hr]
      have hstep : detectTri (recache inp)
          = bvhBest (recache inp).rayTest (recache inp).bvhCandidates := by
        simp only [detectTri, hc]
      rw [hstep]
      exact hbvh
  exact ⟨main, by rw [main]⟩

/-- C8 counterexample: with all-positive material parameters `E = 1`,
`nu = 3/4`, `h = 1` the stiffness factor is negative and the linear law
strictly decreases from depth `0` to depth `1`, refuting monotone
non-decrease for arbitrary positive parameters. -/
theorem claim_C8_counterexample :
    (0:ℝ) < 1 ∧ (0:ℝ) < 3 / 4 ∧ (0:ℝ) ≤ (0:ℝ) ∧ ((0:ℝ) ≤ 1) ∧
    linearPressure 1 (3 / 4) 1 1 < linearPressure 1 (3 / 4) 1 0 := by
  norm_num [linearPressure, elasticCoef]

/-- C8 (amended): for positive modulus and thickness and Poisson
coefficient in `[0, 1/2)`, both depth-pressure laws are monotone
non-decreasing in the depth (the nonlinear law on depths below the
thickness), and both give zero pressure at zero depth. -/
theorem claim_C8_monotone_zero (E nu h d1 d2 : ℝ) (hE : 0 < E)
    (hnu0 : 0 ≤ nu) (hnu : nu < 1 / 2) (hh : 0 < h)
    (hd1 : 0 ≤ d1) (hd12 : d1 ≤ d2) :
    linearPressure E nu h d1 ≤ linearPressure E nu h d2 ∧
    (d2 < h → nonlinearPressure E nu h d1 ≤ nonlinearPressure E nu h d2) ∧
    linearPressure E nu h 0 = 0 ∧
    nonlinearPressure E nu h 0 = 0 := by
  have hA : 0 < elasticCoef E nu := elasticCoef_pos hE hnu0 hnu
  refine ⟨?_, ?_, ?_, ?_⟩
  · unfold linearPressure
    have hdiv : d1 / h ≤ d2 / h := by
      apply div_le_div_of_nonneg_right hd12 hh.le
    exact mul_le_mul_of_nonneg_left hdiv (le_of_lt hA)
  · intro hd2h
    unfold nonlinearPressure
    have hpos2 : 0 < 1 - d2 / h := by
      have : d2 / h < 1 := (div_lt_one hh).mpr hd2h
      linarith
    have hpos1 : 0 < 1 - d1 / h := by
      have hdiv : d1 / h ≤ d2 / h := div_le_div_of_nonneg_right hd12 hh.le
      linarith
    have hargle : 1 - d2 / h ≤ 1 - d1 / h := by
      have hdiv : d1 / h ≤ d2 / h := div_le_div_of_nonneg_right hd12 hh.le
      linarith
    have hlog : Real.log (1 - d2 / h) ≤ Real.log (1 - d1 / h) :=
      (Real.log_le_log_iff hpos2 hpos1).mpr hargle
    have hmul := mul_le_mul_of_nonneg_left hlog (le_of_lt hA)
    linarith
  · unfold linearPressure
    simp
  · unfold nonlinearPressure
    simp

/-- C8 witness: the amended monotonicity at `E = 1`, `nu = 0`, `h = 1`,
depths `0 ≤ 1/2 < 1`. -/
theorem claim_C8_monotone_zero_witness :
    (0:ℝ) < 1 ∧ (0:ℝ) ≤ 0 ∧ (0:ℝ) < 1 / 2 ∧ (0:ℝ) ≤ 0 ∧
    ((0:ℝ) ≤ 1 / 2) ∧
    (linearPressure 1 0 1 0 ≤ linearPressure 1 0 1 (1 / 2) ∧
     ((1:ℝ) / 2 < 1 →
       nonlinearPressure 1 0 1 0 ≤ nonlinearPressure 1 0 1 (1 / 2)) ∧
     linearPressure 1 0 1 0 = 0 ∧
     nonlinearPressure 1 0 1 0 = 0) :=
  ⟨by norm_num, le_refl 0, by norm_num, le_refl 0, by norm_num,
    claim_C8_monotone_zero 1 0 1 0 (1 / 2) (by norm_num) (le_refl 0)
      (by norm_num) (by norm_num) (le_refl 0) (by norm_num)⟩

/-- C9: the whole-mesh center-of-proximity and center-of-pressure outputs
are declared as scalar doubles, their getters read scalar doubles from the
cache, yet the internal `contact_stats` struct stores every center as a
three-component `SimTK::Vec3`, so the total center outputs cannot carry
the 3D center the aggregator computes. -/
theorem claim_C9_center_outputs_scalar :
    outputDecls.lookup "target_total_center_of_proximity"
      = some SimType.double ∧
    outputDecls.lookup "casting_total_center_of_proximity"
      = some SimType.double ∧
    outputDecls.lookup "target_total_center_of_pressure"
      = some SimType.double ∧
    outputDecls.lookup "casting_total_center_of_pressure"
      = some SimType.double ∧
    centerGetterReads.lookup "getTargetCenterOfProximity"
      = some ("target.center_of_proximity", SimType.double) ∧
    centerGetterReads.lookup "getTargetCenterOfPressure"
      = some ("target.center_of_pressure", SimType.double) ∧
    contactStatsFields.lookup "center_of_proximity" = some SimType.vec3 ∧
    contactStatsFields.lookup "center_of_pressure" = some SimType.vec3 ∧
    SimType.double ≠ SimType.vec3 := by
  refine ⟨rfl, rfl, rfl, rfl, rfl, rfl, rfl, rfl, ?_⟩
  intro h
  cases h

/-- C10: both depth-pressure laws depend on the elastic modulus and
Poisson coefficient only through the stiffness factor `k`: two parameter
sets with equal `k` at equal thickness give identical linear and nonlinear
pressures at every depth, and each law factors through its
`k`-parameterised form, the form the split solver's parameter struct
`(h1, h2, k1, k2, dc)` carries. -/
theorem claim_C10_stiffness_determines (E1 nu1 E2 nu2 h : ℝ)
    (hk : matStiffness E1 nu1 h = matStiffness E2 nu2 h) :
    ∀ d, linearPressure E1 nu1 h d = linearPressure E2 nu2 h d ∧
      nonlinearPressure E1 nu1 h d = nonlinearPressure E2 nu2 h d ∧
      linearPressure E1 nu1 h d = linFromK (matStiffness E1 nu1 h) d ∧
      nonlinearPressure E1 nu1 h d
        = nonlinFromK (matStiffness E1 nu1 h) h d := by
  intro d
  by_cases hh : h = 0
  · subst hh
    refine ⟨?_, ?_, ?_, ?_⟩
    · simp [linearPressure]
    · simp [nonlinearPressure]
    · simp [linearPressure, linFromK, matStiffness]
    · simp [nonlinearPressure, nonlinFromK]
  · have hcoef : elasticCoef E1 nu1 = elasticCoef E2 nu2 := by
      rw [matStiffness_eq_coef_div, matStiffness_eq_coef_div] at hk
      field_simp [hh] at hk
      exact hk
    refine ⟨?_, ?_, ?_, ?_⟩
    · unfold linearPressure
      rw [hcoef]
    · unfold nonlinearPressure
      rw [hcoef]
    · unfold linearPressure linFromK
      rw [matStiffness_eq_coef_div]
      ring
    · unfold nonlinearPressure nonlinFromK
      rw [matStiffness_mul_h hh]

/-- C10 witness: `(E, nu) = (2, 0)` and `(4/3, 1/3)` share the stiffness
factor `k = 2` at thickness `1` and give identical pressures at depth
`1`. -/
theorem claim_C10_stiffness_determines_witness :
    matStiffness 2 0 1 = matStiffness (4 / 3) (1 / 3) 1 ∧
    (linearPressure 2 0 1 1 = linearPressure (4 / 3) (1 / 3) 1 1 ∧
     nonlinearPressure 2 0 1 1 = nonlinearPressure (4 / 3) (1 / 3) 1 1 ∧
     linearPressure 2 0 1 1 = linFromK (matStiffness 2 0 1) 1 ∧
     nonlinearPressure 2 0 1 1 = nonlinFromK (matStiffness 2 0 1) 1 1) :=
  ⟨by norm_num [matStiffness],
    claim_C10_stiffness_determines 2 0 (4 / 3) (1 / 3) 1
      (by norm_num [matStiffness]) 1⟩

end Smith2018
